import Mathlib

/-!
Verification of the NL-to-KG query pipeline (ontology, intent extractor,
GraphQL generator, GraphQL-to-Cypher resolver, response formatter and the
pipeline orchestrator).  The definitions below are a shallow embedding of
the Python sources (`ontology.py`, `intent_extractor.py`,
`graphql_generator.py`, `graphql_to_cypher.py`, `pipeline.py`): pure
functions over strings, association lists (Python dicts preserve insertion
order) and a tree type for nested result rows.  The confidence scores are
decimal constants (0.5, 0.2, 0.15, 0.1, 0.85, threshold 0.3); they are
modelled exactly as integer hundredths (50, 20, 15, 10, 85, 30), so every
comparison below is the exact comparison of the corresponding decimals.
-/

namespace NLKG

set_option maxRecDepth 16384

/-! ### String helpers (Python `str.lower`, `in`, `str.replace`, regexes) -/

/-- Quote characters, built by code point to keep literals simple. -/
def dquoteC : Char := Char.ofNat 34

def squoteC : Char := Char.ofNat 39

def squoteS : String := String.mk [squoteC]

/-- ASCII lower-casing of one character (Python `str.lower` restricted to
ASCII; the Norwegian letters in the synonym tables are already lower-case). -/
def lowerChar (c : Char) : Char :=
  if 65 ≤ c.toNat ∧ c.toNat ≤ 90 then Char.ofNat (c.toNat + 32) else c

def lowerAscii (s : String) : String :=
  String.mk (s.toList.map lowerChar)

/-- All suffixes of a list, longest first (including the empty suffix). -/
def suffixes : List Char → List (List Char)
  | [] => [[]]
  | c :: rest => (c :: rest) :: suffixes rest

/-- Python `pat in hay` for strings: substring test. -/
def containsSub (hay pat : String) : Bool :=
  (suffixes hay.toList).any fun t => pat.toList.isPrefixOf t

/-- One fuel-indexed step list for Python `str.replace` (all occurrences,
leftmost first, non-overlapping).  Fuel bounds the number of scanned
positions; `replaceSub` supplies the input length, which always suffices. -/
def replaceFuel (pat rep : List Char) : Nat → List Char → List Char
  | _, [] => []
  | 0, l => l
  | Nat.succ f, c :: rest =>
    if pat.isPrefixOf (c :: rest) && !pat.isEmpty then
      rep ++ replaceFuel pat rep f ((c :: rest).drop pat.length)
    else
      c :: replaceFuel pat rep f rest

def replaceSub (s pat rep : String) : String :=
  String.mk (replaceFuel pat.toList rep.toList s.toList.length s.toList)

/-! ### Association lists standing for Python dicts (insertion order kept) -/

def lookupA (m : List (String × String)) (k : String) : Option String :=
  (m.find? fun p => p.1 == k).map fun p => p.2

/-- Python `dict.get(k, d)`. -/
def getA (m : List (String × String)) (k d : String) : String :=
  (lookupA m k).getD d

/-- Python `k in dict`. -/
def hasKeyA (m : List (String × String)) (k : String) : Bool :=
  (lookupA m k).isSome

/-! ### ontology.py -/

/-- `IntentType` enumeration. -/
inductive IntentType where
  | query_entity
  | query_list
  | query_traverse
  | query_aggregate
  | query_path
  | unknown
deriving DecidableEq, Repr

/-- `BrickClass` enumeration. -/
inductive BrickClass where
  | building | floor | room | hvac_zone
  | hvac_system | electrical_system | lighting_system
  | ahu | vav | chiller | boiler | pump | fan
  | electrical_meter | thermal_meter | water_meter
  | temperature_sensor | humidity_sensor | co2_sensor
  | power_sensor | energy_sensor | flow_sensor | pressure_sensor
  | timeseries
deriving DecidableEq, Repr

/-- The `.value` strings of `BrickClass`. -/
def BrickClass.val : BrickClass → String
  | .building => "brick_Building"
  | .floor => "brick_Floor"
  | .room => "brick_Room"
  | .hvac_zone => "brick_HVAC_Zone"
  | .hvac_system => "brick_HVAC_System"
  | .electrical_system => "brick_Electrical_System"
  | .lighting_system => "brick_Lighting_System"
  | .ahu => "brick_Air_Handling_Unit"
  | .vav => "brick_Variable_Air_Volume_Box"
  | .chiller => "brick_Chiller"
  | .boiler => "brick_Boiler"
  | .pump => "brick_Pump"
  | .fan => "brick_Fan"
  | .electrical_meter => "brick_Electrical_Meter"
  | .thermal_meter => "brick_Thermal_Energy_Meter"
  | .water_meter => "brick_Water_Meter"
  | .temperature_sensor => "brick_Temperature_Sensor"
  | .humidity_sensor => "brick_Humidity_Sensor"
  | .co2_sensor => "brick_CO2_Sensor"
  | .power_sensor => "brick_Power_Sensor"
  | .energy_sensor => "brick_Energy_Sensor"
  | .flow_sensor => "brick_Flow_Sensor"
  | .pressure_sensor => "brick_Pressure_Sensor"
  | .timeseries => "brick_Timeseries"

structure EntityDefinition where
  name : String
  description : String
  properties : List String
  synonyms_no : List String
  synonyms_en : List String

/-- `BrickOntology._init_entities`, in dict insertion order. -/
def entityDefs : List (BrickClass × EntityDefinition) :=
  [ (.building,
     { name := "Building"
       description := "A building with HVAC and energy systems"
       properties := ["id", "name", "description", "address", "area_sqm", "year_built", "energy_class"]
       synonyms_no := ["bygning", "bygg", "hus", "operahus", "operahuset"]
       synonyms_en := ["building", "facility", "structure"] })
  , (.floor,
     { name := "Floor"
       description := "A floor/level in a building"
       properties := ["id", "name", "level"]
       synonyms_no := ["etasje", "plan", "nivå"]
       synonyms_en := ["floor", "level", "story"] })
  , (.hvac_zone,
     { name := "HVAC Zone"
       description := "A zone controlled by HVAC system"
       properties := ["id", "name"]
       synonyms_no := ["sone", "ventilasjonsone", "hvac-sone", "rom", "område"]
       synonyms_en := ["zone", "hvac zone", "area", "space"] })
  , (.hvac_system,
     { name := "HVAC System"
       description := "Heating, ventilation and air conditioning system"
       properties := ["id", "name"]
       synonyms_no := ["ventilasjonsanlegg", "hvac", "klimaanlegg", "varmeanlegg"]
       synonyms_en := ["hvac system", "hvac", "ventilation system", "climate system"] })
  , (.ahu,
     { name := "Air Handling Unit"
       description := "Air handling unit for ventilation"
       properties := ["id", "name", "manufacturer", "model", "capacity", "capacity_unit"]
       synonyms_no := ["aggregat", "ahu", "luftbehandler", "ventilasjonsenhet"]
       synonyms_en := ["ahu", "air handling unit", "air handler"] })
  , (.chiller,
     { name := "Chiller"
       description := "Chiller for cooling"
       properties := ["id", "name", "manufacturer", "model", "capacity", "capacity_unit"]
       synonyms_no := ["kjølemaskin", "chiller", "kjøleanlegg"]
       synonyms_en := ["chiller", "cooling unit", "cooling machine"] })
  , (.pump,
     { name := "Pump"
       description := "Pump for fluid circulation"
       properties := ["id", "name", "manufacturer", "capacity", "capacity_unit"]
       synonyms_no := ["pumpe", "sirkulasjonspumpe", "vannpumpe"]
       synonyms_en := ["pump", "circulation pump"] })
  , (.electrical_meter,
     { name := "Electrical Meter"
       description := "Meter for measuring electricity consumption"
       properties := ["id", "name", "unit"]
       synonyms_no := ["strømmåler", "elmåler", "elektrisitetsmåler", "hovedmåler"]
       synonyms_en := ["electrical meter", "power meter", "electricity meter"] })
  , (.temperature_sensor,
     { name := "Temperature Sensor"
       description := "Sensor measuring temperature"
       properties := ["id", "name", "unit"]
       synonyms_no := ["temperatursensor", "temperaturføler", "temp", "temperatur"]
       synonyms_en := ["temperature sensor", "temp sensor", "temperature"] })
  , (.power_sensor,
     { name := "Power Sensor"
       description := "Sensor measuring power consumption"
       properties := ["id", "name", "unit"]
       synonyms_no := ["effektmåler", "wattmåler", "strømsensor", "effekt"]
       synonyms_en := ["power sensor", "watt sensor", "power meter"] })
  , (.co2_sensor,
     { name := "CO2 Sensor"
       description := "Sensor measuring CO2 levels"
       properties := ["id", "name", "unit"]
       synonyms_no := ["co2-sensor", "co2", "luftkvalitet"]
       synonyms_en := ["co2 sensor", "carbon dioxide sensor", "air quality"] })
  , (.timeseries,
     { name := "Timeseries"
       description := "Reference to external timeseries data"
       properties := ["id", "external_id", "resolution"]
       synonyms_no := ["tidsserie", "data", "målinger", "historikk"]
       synonyms_en := ["timeseries", "time series", "data", "measurements", "history"] })
  ]

structure TraversalPattern where
  name : String
  description : String

/-- `BrickOntology._init_traversals` (the Cypher pattern bodies are not
consulted by any pipeline stage below, so only name and description are
carried). -/
def traversals : List (String × TraversalPattern) :=
  [ ("building_sensors",
     { name := "building_sensors"
       description := "All sensors in a building (through systems and equipment)" })
  , ("zone_sensors",
     { name := "zone_sensors"
       description := "All sensors in a specific zone" })
  , ("equipment_timeseries",
     { name := "equipment_timeseries"
       description := "Timeseries data references for equipment sensors" })
  , ("ahu_zones",
     { name := "ahu_zones"
       description := "Which zones an AHU feeds" })
  , ("building_meters",
     { name := "building_meters"
       description := "All meters for a building" })
  , ("full_hierarchy",
     { name := "full_hierarchy"
       description := "Full hierarchy from building to timeseries" })
  ]

/-- `BrickOntology._init_intent_patterns`, in dict insertion order. -/
def intent_patterns : List (IntentType × List String) :=
  [ (.query_entity,
     [ "hva er", "vis meg", "finn", "hent", "gi meg info om"
     , "detaljer om", "informasjon om"
     , "what is", "show me", "find", "get", "give me info about"
     , "details about", "information about" ])
  , (.query_list,
     [ "vis alle", "list opp", "hvilke", "gi meg alle", "hent alle"
     , "hvor mange", "list alle"
     , "show all", "list all", "which", "give me all", "get all"
     , "how many", "what are the" ])
  , (.query_traverse,
     [ "sensorer i", "utstyr i", "soner som", "som mater", "koblet til"
     , "relatert til", "i bygget", "i sonen", "tilhører"
     , "sensors in", "equipment in", "zones that", "feeds", "connected to"
     , "related to", "in building", "in zone", "belongs to" ])
  , (.query_aggregate,
     [ "antall", "totalt", "sum", "gjennomsnitt", "tell"
     , "count", "total", "sum", "average", "number of" ])
  , (.query_path,
     [ "vei mellom", "sti fra", "kobling mellom", "forbindelse"
     , "path between", "path from", "connection between", "link" ])
  ]

/-- `BrickOntology.find_entity_by_text`. -/
def find_entity_by_text (text : String) : Option BrickClass :=
  let text_lower := lowerAscii text
  (entityDefs.find? fun p =>
    (p.2.synonyms_no ++ p.2.synonyms_en ++ [lowerAscii p.2.name]).any fun syn =>
      containsSub text_lower syn).map fun p => p.1

/-- Keyword table of `BrickOntology.find_traversal_by_intent`. -/
def traversal_keywords : List (String × List String) :=
  [ ("building_sensors", ["sensorer i bygg", "sensors in building", "alle sensorer"])
  , ("zone_sensors", ["sensorer i sone", "sensors in zone", "sone sensor"])
  , ("equipment_timeseries", ["tidsserie", "timeseries", "data for", "målinger"])
  , ("ahu_zones", ["soner som", "zones fed", "mater", "feeds"])
  , ("building_meters", ["målere", "meters", "strømmåler", "electrical meter"])
  , ("full_hierarchy", ["hierarki", "hierarchy", "full oversikt", "alt i"])
  ]

/-- `BrickOntology.find_traversal_by_intent`. -/
def find_traversal_by_intent (text : String) : Option TraversalPattern :=
  let text_lower := lowerAscii text
  match traversal_keywords.find? fun p => p.2.any fun kw => containsSub text_lower kw with
  | some p => (traversals.find? fun t => t.1 == p.1).map fun t => t.2
  | none => none

/-- `BrickOntology.detect_intent`. -/
def detect_intent (text : String) : IntentType :=
  let text_lower := lowerAscii text
  match intent_patterns.find? fun p => p.2.any fun pat => containsSub text_lower pat with
  | some p => p.1
  | none => IntentType.unknown

/-! ### intent_extractor.py — rule-based fallback path -/

/-- Python `\w` (ASCII approximation; the concrete inputs considered are
covered by it). -/
def isWordChar (c : Char) : Bool := c.isAlpha || c.isDigit || c == '_'

def isSpaceChar (c : Char) : Bool := c == ' ' || c == '\t' || c == '\n'

def skipSpaces : List Char → List Char
  | [] => []
  | c :: r => if isSpaceChar c then skipSpaces r else c :: r

/-- Longest `\w+`-style split.  Returns the word and the rest. -/
def takeWord : List Char → List Char × List Char
  | [] => ([], [])
  | c :: r =>
    if isWordChar c then
      let p := takeWord r
      (c :: p.1, p.2)
    else ([], c :: r)

def isQuote (c : Char) : Bool := c == dquoteC || c == squoteC

/-- Tail of the id regex after its keyword: `\s*[=:]?\s*(['\"]?)(\w+)\1`. -/
def idTail (cs : List Char) : Option String :=
  let cs := skipSpaces cs
  let cs := match cs with
    | c :: r => if c == '=' || c == ':' then r else c :: r
    | [] => []
  let cs := skipSpaces cs
  match cs with
  | [] => none
  | c :: r =>
    if isQuote c then
      match takeWord r with
      | ([], _) => none
      | (_, []) => none
      | (w, c2 :: _) => if c2 == c then some (String.mk w) else none
    else
      match takeWord (c :: r) with
      | ([], _) => none
      | (w, _) => some (String.mk w)

/-- Alternation `(?:id|nummer|number)` at one position. -/
def tryIdKeywords (cs : List Char) : Option String :=
  if "id".toList.isPrefixOf cs then idTail (cs.drop 2)
  else if "nummer".toList.isPrefixOf cs then idTail (cs.drop 6)
  else if "number".toList.isPrefixOf cs then idTail (cs.drop 6)
  else none

/-- Leftmost match of `\b(?:id|nummer|number)\s*[=:]?\s*(['\"]?)(\w+)\1`.
The boolean carries whether the previous character was a word character
(the `\b` boundary check). -/
def searchIdParam : List Char → Bool → Option String
  | [], _ => none
  | c :: rest, prevWord =>
    match (if prevWord then none else tryIdKeywords (c :: rest)) with
    | some v => some v
    | none => searchIdParam rest (isWordChar c)

/-- Longest run of non-quote characters. -/
def takeNonQuote : List Char → List Char × List Char
  | [] => ([], [])
  | c :: r =>
    if isQuote c then ([], c :: r)
    else
      let p := takeNonQuote r
      (c :: p.1, p.2)

/-- Leftmost match of `[\"']([^\"']+)[\"']`. -/
def searchQuoted : List Char → Option String
  | [] => none
  | c :: rest =>
    if isQuote c then
      match takeNonQuote rest with
      | ([], _) => searchQuoted rest
      | (_, []) => none
      | (w, c2 :: _) => if isQuote c2 then some (String.mk w) else searchQuoted rest
    else searchQuoted rest

def building_names : List String := ["operahuset", "opera", "hovedbygg"]

def zone_patterns : List String := ["foyer", "hovedsal", "backstage", "sone"]

def equipment_patterns : List String := ["ahu", "aggregat", "kjølemaskin", "chiller", "pumpe"]

def firstContained (q : String) (names : List String) : Option String :=
  names.find? fun n => containsSub q n

/-- Python two-argument `min`, kept as an `if` so the kernel can evaluate it. -/
def pymin (a b : Nat) : Nat := if a ≤ b then a else b

/-- `IntentExtractor._extract_parameters`. -/
def extract_parameters (query : String) : List (String × String) :=
  let ps : List (String × String) := []
  let ps := match searchIdParam query.toList false with
    | some v => ps ++ [("id", v)]
    | none => ps
  let ps := match searchQuoted query.toList with
    | some v => ps ++ [("name", v)]
    | none => ps
  let ps := match firstContained query building_names with
    | some v => ps ++ [("building_name", v)]
    | none => ps
  let ps := match firstContained query zone_patterns with
    | some v => ps ++ [("zone_name", v)]
    | none => ps
  let ps := match firstContained query equipment_patterns with
    | some v => ps ++ [("equipment_name", v)]
    | none => ps
  ps

/-- Extracted intent; `confidence` is in hundredths (`80` stands for the
Python float `0.8`). -/
structure ExtractedIntent where
  intent_type : IntentType
  entity_class : Option BrickClass
  parameters : List (String × String)
  traversal_hint : Option String
  confidence : Nat
  original_query : String
deriving DecidableEq

/-- `IntentExtractor._extract_rule_based`.  The confidence constants 0.5,
0.2, 0.15, 0.1 and the cap 0.85 appear as 50, 20, 15, 10 and 85. -/
def extract_rule_based (query : String) : ExtractedIntent :=
  let query_lower := lowerAscii query
  let intent_type := detect_intent query_lower
  let entity_class := find_entity_by_text query_lower
  let traversal := find_traversal_by_intent query_lower
  let traversal_hint := traversal.map fun t => t.name
  let parameters := extract_parameters query_lower
  let confidence : Nat := 50
  let confidence := if entity_class.isSome then confidence + 20 else confidence
  let confidence := if traversal_hint.isSome then confidence + 15 else confidence
  let confidence := if intent_type ≠ IntentType.unknown then confidence + 10 else confidence
  { intent_type := intent_type
    entity_class := entity_class
    parameters := parameters
    traversal_hint := traversal_hint
    confidence := pymin confidence 85
    original_query := query }

/-! ### graphql_generator.py -/

structure GeneratedGraphQL where
  query : String
  /-- Python field `variables` (that identifier is a reserved word in Lean). -/
  vars : List (String × String)
  operation_name : String
  description : String
  requested_fields : List String
deriving DecidableEq

/-- `GraphQLGenerator.entity_to_query`. -/
def entity_to_query : BrickClass → Option (String × String)
  | .building => some ("building", "Building")
  | .floor => some ("floors", "Floor")
  | .hvac_zone => some ("zones", "HVACZone")
  | .hvac_system => some ("systems", "System")
  | .electrical_system => some ("systems", "System")
  | .ahu => some ("equipment", "Equipment")
  | .chiller => some ("equipment", "Equipment")
  | .pump => some ("equipment", "Equipment")
  | .temperature_sensor => some ("sensors", "Sensor")
  | .power_sensor => some ("sensors", "Sensor")
  | .co2_sensor => some ("sensors", "Sensor")
  | .electrical_meter => some ("meters", "Meter")
  | .timeseries => some ("timeseries", "Timeseries")
  | _ => none

/-- `GraphQLGenerator.type_fields`. -/
def type_fields : String → Option (List String)
  | "Building" => some ["id", "name", "address", "areaSqm", "yearBuilt", "energyClass"]
  | "Floor" => some ["id", "name", "level"]
  | "HVACZone" => some ["id", "name"]
  | "System" => some ["id", "name", "systemType"]
  | "Equipment" => some ["id", "name", "equipmentType", "manufacturer", "model"]
  | "Sensor" => some ["id", "name", "unit", "sensorType"]
  | "Meter" => some ["id", "name", "meterType", "unit"]
  | "Timeseries" => some ["id", "externalId", "resolution"]
  | _ => none

/-- Python `s.endswith("s")`. -/
def endsWithS (s : String) : Bool :=
  match s.toList.getLast? with
  | some c => c == 's'
  | none => false

/-- Python `s[:-1]`. -/
def dropLastS (s : String) : String := String.mk s.toList.dropLast

/-- Python `requested_fields or default` (`None` and `[]` are both falsy). -/
def fieldsOr (rf : Option (List String)) (dflt : List String) : List String :=
  match rf with
  | some fs => if fs.isEmpty then dflt else fs
  | none => dflt

/-- Python `str(parameters)` for a dict of strings, e.g.
`\x7b'name': 'opera'\x7d`. -/
def strOfParams (ps : List (String × String)) : String :=
  "\x7b" ++
    String.intercalate ", "
      (ps.map fun p => squoteS ++ p.1 ++ squoteS ++ ": " ++ squoteS ++ p.2 ++ squoteS) ++
  "\x7d"

/-- Python `oc in [c1, ..., cn]` for an optional enum value. -/
def inList (oc : Option BrickClass) (l : List BrickClass) : Bool :=
  match oc with
  | some c => l.contains c
  | none => false

/-- `GraphQLGenerator._generate_single_query`. -/
def generate_single_query (entity_class : Option BrickClass)
    (parameters : List (String × String)) (requested_fields : Option (List String)) :
    GeneratedGraphQL :=
  let ec := entity_class.getD BrickClass.building
  let qt := (entity_to_query ec).getD ("building", "Building")
  let query_name := qt.1
  let type_name := qt.2
  let fields := fieldsOr requested_fields ((type_fields type_name).getD ["id", "name"])
  let field_str := String.intercalate "\n      " fields
  let args : List String := []
  let vars : List (String × String) := []
  let av :=
    if hasKeyA parameters "id" then
      (args ++ ["id: $id"], vars ++ [("id", getA parameters "id" "")])
    else (args, vars)
  let av :=
    if hasKeyA parameters "name" || hasKeyA parameters "building_name" then
      (av.1 ++ ["name: $name"],
       av.2 ++ [("name", getA parameters "name" (getA parameters "building_name" ""))])
    else av
  let args_str := if av.1.isEmpty then "" else "(" ++ String.intercalate ", " av.1 ++ ")"
  let singular_query := if endsWithS query_name then dropLastS query_name else query_name
  let query :=
    "query Get" ++ type_name ++ "($id: String, $name: String) \x7b\n  " ++
    singular_query ++ args_str ++ " \x7b\n      " ++ field_str ++ "\n  \x7d\n\x7d"
  { query := query
    vars := av.2
    operation_name := "Get" ++ type_name
    description := "Get " ++ type_name ++ " by ID or name"
    requested_fields := fields }

/-- `GraphQLGenerator._generate_list_query`. -/
def generate_list_query (entity_class : Option BrickClass)
    (parameters : List (String × String)) (requested_fields : Option (List String)) :
    GeneratedGraphQL :=
  match entity_class with
  | none =>
    { query := "query ListBuildings \x7b\n  buildings \x7b\n      id\n      name\n      address\n  \x7d\n\x7d"
      vars := []
      operation_name := "ListBuildings"
      description := "List all buildings"
      requested_fields := ["id", "name", "address"] }
  | some ec =>
    let qt := (entity_to_query ec).getD ("buildings", "Building")
    let type_name := qt.2
    let query_name := if !endsWithS qt.1 then qt.1 ++ "s" else qt.1
    let fields := fieldsOr requested_fields ((type_fields type_name).getD ["id", "name"])
    let field_str := String.intercalate "\n      " fields
    let args : List String :=
      if [BrickClass.temperature_sensor, .power_sensor, .co2_sensor].contains ec then
        let sensor_type := replaceSub ec.val "brick_" ""
        ["sensorType: \"" ++ sensor_type ++ "\""]
      else if [BrickClass.ahu, .chiller, .pump].contains ec then
        let equip_type := replaceSub ec.val "brick_" ""
        ["equipmentType: \"" ++ equip_type ++ "\""]
      else if [BrickClass.hvac_system, .electrical_system].contains ec then
        let sys_type := replaceSub (replaceSub ec.val "brick_" "") "_System" ""
        ["systemType: \"" ++ sys_type ++ "\""]
      else []
    let avd :=
      if hasKeyA parameters "building_id" then
        (args ++ ["buildingId: $buildingId"],
         [("buildingId", getA parameters "building_id" "")],
         ["$buildingId: String"])
      else (args, ([] : List (String × String)), ([] : List String))
    let args_str := if avd.1.isEmpty then "" else "(" ++ String.intercalate ", " avd.1 ++ ")"
    let var_str := if avd.2.2.isEmpty then "" else "(" ++ String.intercalate ", " avd.2.2 ++ ")"
    let query :=
      "query List" ++ type_name ++ "s" ++ var_str ++ " \x7b\n  " ++
      query_name ++ args_str ++ " \x7b\n      " ++ field_str ++ "\n  \x7d\n\x7d"
    { query := query
      vars := avd.2.1
      operation_name := "List" ++ type_name ++ "s"
      description := "List all " ++ type_name ++ "s"
      requested_fields := fields }

/-- `GraphQLGenerator._generate_traverse_query` (the `requested_fields`
argument of the Python function is unused by its body). -/
def generate_traverse_query (entity_class : Option BrickClass)
    (parameters : List (String × String)) : GeneratedGraphQL :=
  let pstr := lowerAscii (strOfParams parameters)
  if entity_class == some BrickClass.building || containsSub pstr "building" then
    { query :=
        "query BuildingWithDetails($name: String) \x7b\n  building(name: $name) \x7b\n      id\n      name\n      address\n      areaSqm\n      energyClass\n      floors \x7b\n          id\n          name\n          level\n          zones \x7b\n              id\n              name\n          \x7d\n      \x7d\n      systems \x7b\n          id\n          name\n          systemType\n          equipment \x7b\n              id\n              name\n              equipmentType\n          \x7d\n      \x7d\n      meters \x7b\n          id\n          name\n          meterType\n      \x7d\n  \x7d\n\x7d"
      vars := [("name", getA parameters "name" (getA parameters "building_name" ""))]
      operation_name := "BuildingWithDetails"
      description := "Get building with all details"
      requested_fields := ["id", "name", "floors", "systems", "meters"] }
  else if entity_class == some BrickClass.hvac_zone || containsSub pstr "zone" then
    let zone_name := getA parameters "zone_name" (getA parameters "name" "")
    { query :=
        "query ZoneWithSensors($name: String) \x7b\n  zones \x7b\n      id\n      name\n      sensors \x7b\n          id\n          name\n          unit\n          sensorType\n          timeseries \x7b\n              externalId\n              resolution\n          \x7d\n      \x7d\n      fedBy \x7b\n          id\n          name\n          equipmentType\n      \x7d\n  \x7d\n\x7d"
      vars := [("name", zone_name)]
      operation_name := "ZoneWithSensors"
      description := "Get zones with sensors"
      requested_fields := ["id", "name", "sensors", "fedBy"] }
  else if entity_class == some BrickClass.ahu || containsSub pstr "ahu" || containsSub pstr "aggregat" then
    { query :=
        "query AHUWithZones($name: String) \x7b\n  equipment(equipmentType: \"Air_Handling_Unit\") \x7b\n      id\n      name\n      manufacturer\n      model\n      sensors \x7b\n          id\n          name\n          unit\n          sensorType\n      \x7d\n  \x7d\n\x7d"
      vars := [("name", getA parameters "name" (getA parameters "ahu_name" ""))]
      operation_name := "AHUWithZones"
      description := "Get AHU with zones and sensors"
      requested_fields := ["id", "name", "sensors"] }
  else if inList entity_class [BrickClass.temperature_sensor, .power_sensor, .co2_sensor] then
    let sensor_type :=
      match entity_class with
      | some ec => replaceSub ec.val "brick_" ""
      | none => ""
    { query :=
        "query SensorsWithTimeseries \x7b\n  sensors(sensorType: \"" ++ sensor_type ++ "\") \x7b\n      id\n      name\n      unit\n      sensorType\n      timeseries \x7b\n          id\n          externalId\n          resolution\n      \x7d\n  \x7d\n\x7d"
      vars := []
      operation_name := "SensorsWithTimeseries"
      description := "Get " ++ sensor_type ++ " sensors with timeseries"
      requested_fields := ["id", "name", "unit", "timeseries"] }
  else
    { query :=
        "query AllSensors \x7b\n  sensors \x7b\n      id\n      name\n      unit\n      sensorType\n      timeseries \x7b\n          externalId\n      \x7d\n  \x7d\n\x7d"
      vars := []
      operation_name := "AllSensors"
      description := "Get all sensors with timeseries"
      requested_fields := ["id", "name", "unit", "sensorType"] }

/-- `GraphQLGenerator._generate_aggregate_query` (its Python `parameters`
argument is unused by its body). -/
def generate_aggregate_query (entity_class : Option BrickClass)
    (_parameters : List (String × String)) : GeneratedGraphQL :=
  if inList entity_class
      [BrickClass.temperature_sensor, .power_sensor, .co2_sensor, .humidity_sensor] then
    let sensor_type :=
      match entity_class with
      | some ec => replaceSub ec.val "brick_" ""
      | none => ""
    { query := "query CountSensors \x7b\n  sensorCount(sensorType: \"" ++ sensor_type ++ "\")\n\x7d"
      vars := []
      operation_name := "CountSensors"
      description := "Count " ++ (if sensor_type == "" then "all" else sensor_type) ++ " sensors"
      requested_fields := ["count"] }
  else if inList entity_class [BrickClass.ahu, .chiller, .pump] then
    let equip_type :=
      match entity_class with
      | some ec => replaceSub ec.val "brick_" ""
      | none => ""
    { query := "query CountEquipment \x7b\n  equipmentCount(equipmentType: \"" ++ equip_type ++ "\")\n\x7d"
      vars := []
      operation_name := "CountEquipment"
      description := "Count " ++ (if equip_type == "" then "all" else equip_type) ++ " equipment"
      requested_fields := ["count"] }
  else if entity_class == some BrickClass.floor then
    { query := "query CountFloors \x7b\n  floors \x7b\n      id\n  \x7d\n\x7d"
      vars := []
      operation_name := "CountFloors"
      description := "Count floors"
      requested_fields := ["count"] }
  else
    { query := "query CountSensors \x7b\n  sensorCount\n\x7d"
      vars := []
      operation_name := "CountSensors"
      description := "Count all sensors"
      requested_fields := ["count"] }

/-- `GraphQLGenerator._generate_default_query` (both of its Python
arguments are unused by its body). -/
def generate_default_query : GeneratedGraphQL :=
  { query := "query Overview \x7b\n  buildings \x7b\n      id\n      name\n      address\n  \x7d\n\x7d"
    vars := []
    operation_name := "Overview"
    description := "Get building overview"
    requested_fields := ["id", "name", "address"] }

/-- `GraphQLGenerator.generate`. -/
def generate (intent_type : IntentType) (entity_class : Option BrickClass)
    (parameters : List (String × String)) (requested_fields : Option (List String)) :
    GeneratedGraphQL :=
  match intent_type with
  | .query_entity => generate_single_query entity_class parameters requested_fields
  | .query_list => generate_list_query entity_class parameters requested_fields
  | .query_traverse => generate_traverse_query entity_class parameters
  | .query_aggregate => generate_aggregate_query entity_class parameters
  | _ => generate_default_query

/-! ### graphql_to_cypher.py -/

structure CypherQuery where
  cypher : String
  parameters : List (String × String)
  description : String
deriving DecidableEq

/-- `GraphQLToCypherResolver.system_types`. -/
def system_types : List (String × String) :=
  [ ("HVAC", "brick_HVAC_System")
  , ("Electrical", "brick_Electrical_System")
  , ("Lighting", "brick_Lighting_System") ]

/-- `GraphQLToCypherResolver.equipment_types`. -/
def equipment_types : List (String × String) :=
  [ ("AHU", "brick_Air_Handling_Unit")
  , ("Air_Handling_Unit", "brick_Air_Handling_Unit")
  , ("Chiller", "brick_Chiller")
  , ("Pump", "brick_Pump")
  , ("Boiler", "brick_Boiler")
  , ("Fan", "brick_Fan") ]

/-- `GraphQLToCypherResolver.sensor_types`. -/
def sensor_types : List (String × String) :=
  [ ("Temperature", "brick_Temperature_Sensor")
  , ("Temperature_Sensor", "brick_Temperature_Sensor")
  , ("Power", "brick_Power_Sensor")
  , ("Power_Sensor", "brick_Power_Sensor")
  , ("CO2", "brick_CO2_Sensor")
  , ("CO2_Sensor", "brick_CO2_Sensor")
  , ("Energy", "brick_Energy_Sensor")
  , ("Energy_Sensor", "brick_Energy_Sensor")
  , ("Humidity", "brick_Humidity_Sensor")
  , ("Humidity_Sensor", "brick_Humidity_Sensor") ]

/-- `GraphQLToCypherResolver._resolve_building`. -/
def resolve_building (vars : List (String × String)) : CypherQuery :=
  let building_id := getA vars "id" ""
  let building_name := getA vars "name" ""
  { cypher := "\nMATCH (b:brick_Building)\nWHERE ($id = '' OR b.id = $id) AND ($name = '' OR b.name CONTAINS $name)\nOPTIONAL MATCH (b)-[:brick_hasPart]->(f:brick_Floor)\nOPTIONAL MATCH (b)-[:brick_hasPart]->(sys)\nWHERE NOT sys:brick_Floor\nOPTIONAL MATCH (b)-[:brick_isMeteredBy]->(m)\nRETURN b \x7b\n    .id, .name, .description, .address, .area_sqm, .year_built, .energy_class,\n    floors: collect(DISTINCT f \x7b.id, .name, .level\x7d),\n    systems: collect(DISTINCT sys \x7b.id, .name, type: labels(sys)[0]\x7d),\n    meters: collect(DISTINCT m \x7b.id, .name, type: labels(m)[0], .unit\x7d)\n\x7d\nLIMIT 1"
    parameters := [("id", building_id), ("name", building_name)]
    description := "Get building with related entities" }

/-- `GraphQLToCypherResolver._resolve_buildings`. -/
def resolve_buildings : CypherQuery :=
  { cypher := "\nMATCH (b:brick_Building)\nRETURN b \x7b.id, .name, .address, .area_sqm, .energy_class\x7d"
    parameters := []
    description := "Get all buildings" }

/-- `GraphQLToCypherResolver._resolve_floors`. -/
def resolve_floors (vars : List (String × String)) : CypherQuery :=
  let building_id := getA vars "buildingId" (getA vars "building_id" "")
  if building_id != "" then
    { cypher := "\nMATCH (b:brick_Building \x7bid: $building_id\x7d)-[:brick_hasPart]->(f:brick_Floor)\nOPTIONAL MATCH (f)-[:brick_hasPart]->(z:brick_HVAC_Zone)\nRETURN f \x7b.id, .name, .level, zones: collect(z \x7b.id, .name\x7d)\x7d\nORDER BY f.level"
      parameters := [("building_id", building_id)]
      description := "Get floors for building" }
  else
    { cypher := "\nMATCH (f:brick_Floor)\nRETURN f \x7b.id, .name, .level\x7d\nORDER BY f.level"
      parameters := []
      description := "Get all floors" }

/-- `GraphQLToCypherResolver._resolve_zones`. -/
def resolve_zones (vars : List (String × String)) : CypherQuery :=
  let floor_id := getA vars "floorId" (getA vars "floor_id" "")
  let building_id := getA vars "buildingId" (getA vars "building_id" "")
  if floor_id != "" then
    { cypher := "\nMATCH (f:brick_Floor \x7bid: $floor_id\x7d)-[:brick_hasPart]->(z:brick_HVAC_Zone)\nOPTIONAL MATCH (z)-[:brick_hasPoint]->(s)\nOPTIONAL MATCH (eq)-[:brick_feeds]->(z)\nRETURN z \x7b\n    .id, .name,\n    sensors: collect(DISTINCT s \x7b.id, .name, .unit, type: labels(s)[0]\x7d),\n    fedBy: collect(DISTINCT eq \x7b.id, .name, type: labels(eq)[0]\x7d)\n\x7d"
      parameters := [("floor_id", floor_id)]
      description := "Get zones for floor" }
  else if building_id != "" then
    { cypher := "\nMATCH (b:brick_Building \x7bid: $building_id\x7d)-[:brick_hasPart]->(:brick_Floor)\n      -[:brick_hasPart]->(z:brick_HVAC_Zone)\nRETURN z \x7b.id, .name\x7d"
      parameters := [("building_id", building_id)]
      description := "Get zones for building" }
  else
    { cypher := "MATCH (z:brick_HVAC_Zone) RETURN z \x7b.id, .name\x7d"
      parameters := []
      description := "Get all zones" }

/-- `GraphQLToCypherResolver._resolve_systems`. -/
def resolve_systems (vars : List (String × String)) : CypherQuery :=
  let building_id := getA vars "buildingId" (getA vars "building_id" "")
  let system_type := getA vars "systemType" (getA vars "system_type" "")
  let label_filter :=
    if system_type != "" then
      " AND sys:" ++ ((lookupA system_types system_type).getD ("brick_" ++ system_type))
    else ""
  if building_id != "" then
    { cypher := "\nMATCH (b:brick_Building \x7bid: $building_id\x7d)-[:brick_hasPart]->(sys)\nWHERE NOT sys:brick_Floor" ++ label_filter ++ "\nOPTIONAL MATCH (sys)-[:brick_hasMember]->(eq)\nRETURN sys \x7b\n    .id, .name, systemType: labels(sys)[0],\n    equipment: collect(eq \x7b.id, .name, type: labels(eq)[0]\x7d)\n\x7d"
      parameters := [("building_id", building_id)]
      description := "Get systems for building" }
  else
    { cypher := "\nMATCH (sys)\nWHERE (sys:brick_HVAC_System OR sys:brick_Electrical_System OR sys:brick_Lighting_System)" ++ label_filter ++ "\nRETURN sys \x7b.id, .name, systemType: labels(sys)[0]\x7d"
      parameters := []
      description := "Get all systems" }

/-- `GraphQLToCypherResolver._resolve_equipment`. -/
def resolve_equipment (vars : List (String × String)) : CypherQuery :=
  let system_id := getA vars "systemId" (getA vars "system_id" "")
  let equipment_type := getA vars "equipmentType" (getA vars "equipment_type" "")
  let label_filter :=
    if equipment_type != "" then
      ":" ++ ((lookupA equipment_types equipment_type).getD ("brick_" ++ equipment_type))
    else ""
  if system_id != "" then
    { cypher := "\nMATCH (sys \x7bid: $system_id\x7d)-[:brick_hasMember]->(eq" ++ label_filter ++ ")\nOPTIONAL MATCH (eq)-[:brick_hasPoint]->(s)\nOPTIONAL MATCH (eq)-[:brick_feeds]->(z:brick_HVAC_Zone)\nRETURN eq \x7b\n    .id, .name, equipmentType: labels(eq)[0],\n    .manufacturer, .model, .capacity, .capacity_unit,\n    sensors: collect(DISTINCT s \x7b.id, .name, .unit, type: labels(s)[0]\x7d),\n    zones: collect(DISTINCT z.name)\n\x7d"
      parameters := [("system_id", system_id)]
      description := "Get equipment for system" }
  else
    { cypher := "\nMATCH (eq" ++ label_filter ++ ")\nWHERE eq:brick_Air_Handling_Unit OR eq:brick_Chiller OR eq:brick_Pump OR eq:brick_Boiler\nRETURN eq \x7b.id, .name, equipmentType: labels(eq)[0], .manufacturer, .model\x7d"
      parameters := []
      description := "Get all equipment" }

/-- `GraphQLToCypherResolver._resolve_sensors`. -/
def resolve_sensors (vars : List (String × String)) : CypherQuery :=
  let zone_id := getA vars "zoneId" (getA vars "zone_id" "")
  let equipment_id := getA vars "equipmentId" (getA vars "equipment_id" "")
  let sensor_type := getA vars "sensorType" (getA vars "sensor_type" "")
  let label_filter :=
    if sensor_type != "" then
      ":" ++ ((lookupA sensor_types sensor_type).getD ("brick_" ++ sensor_type))
    else ""
  if zone_id != "" then
    { cypher := "\nMATCH (z:brick_HVAC_Zone \x7bid: $zone_id\x7d)-[:brick_hasPoint]->(s" ++ label_filter ++ ")\nOPTIONAL MATCH (s)-[:brick_hasTimeseries]->(ts)\nRETURN s \x7b\n    .id, .name, .unit, sensorType: labels(s)[0],\n    timeseries: ts \x7b.id, .external_id, .resolution\x7d\n\x7d"
      parameters := [("zone_id", zone_id)]
      description := "Get sensors for zone" }
  else if equipment_id != "" then
    { cypher := "\nMATCH (eq \x7bid: $equipment_id\x7d)-[:brick_hasPoint]->(s" ++ label_filter ++ ")\nOPTIONAL MATCH (s)-[:brick_hasTimeseries]->(ts)\nRETURN s \x7b\n    .id, .name, .unit, sensorType: labels(s)[0],\n    timeseries: ts \x7b.id, .external_id, .resolution\x7d\n\x7d"
      parameters := [("equipment_id", equipment_id)]
      description := "Get sensors for equipment" }
  else
    { cypher := "\nMATCH (s" ++ label_filter ++ ")\nWHERE s:brick_Temperature_Sensor OR s:brick_Power_Sensor OR s:brick_CO2_Sensor \n      OR s:brick_Energy_Sensor OR s:brick_Humidity_Sensor\nRETURN s \x7b.id, .name, .unit, sensorType: labels(s)[0]\x7d"
      parameters := []
      description := "Get all sensors" }

/-- `GraphQLToCypherResolver._resolve_meters`. -/
def resolve_meters (vars : List (String × String)) : CypherQuery :=
  let building_id := getA vars "buildingId" (getA vars "building_id" "")
  if building_id != "" then
    { cypher := "\nMATCH (b:brick_Building \x7bid: $building_id\x7d)-[:brick_isMeteredBy]->(m)\nOPTIONAL MATCH (m)-[:brick_hasPoint]->(s)\nRETURN m \x7b\n    .id, .name, .unit, meterType: labels(m)[0],\n    sensors: collect(s \x7b.id, .name, .unit\x7d)\n\x7d"
      parameters := [("building_id", building_id)]
      description := "Get meters for building" }
  else
    { cypher := "\nMATCH (m)\nWHERE m:brick_Electrical_Meter OR m:brick_Thermal_Energy_Meter OR m:brick_Water_Meter\nRETURN m \x7b.id, .name, .unit, meterType: labels(m)[0]\x7d"
      parameters := []
      description := "Get all meters" }

/-- `GraphQLToCypherResolver._resolve_timeseries`. -/
def resolve_timeseries (vars : List (String × String)) : CypherQuery :=
  let sensor_id := getA vars "sensorId" (getA vars "sensor_id" "")
  if sensor_id != "" then
    { cypher := "\nMATCH (s \x7bid: $sensor_id\x7d)-[:brick_hasTimeseries]->(ts:brick_Timeseries)\nRETURN ts \x7b.id, .external_id, .resolution\x7d"
      parameters := [("sensor_id", sensor_id)]
      description := "Get timeseries for sensor" }
  else
    { cypher := "\nMATCH (s)-[:brick_hasTimeseries]->(ts:brick_Timeseries)\nRETURN s.name as sensor, ts \x7b.id, .external_id, .resolution\x7d"
      parameters := []
      description := "Get all timeseries" }

/-- `GraphQLToCypherResolver._resolve_sensor_count`. -/
def resolve_sensor_count (vars : List (String × String)) : CypherQuery :=
  let sensor_type := getA vars "sensorType" (getA vars "sensor_type" "")
  if sensor_type != "" then
    let brick_label := (lookupA sensor_types sensor_type).getD ("brick_" ++ sensor_type)
    { cypher := "MATCH (s:" ++ brick_label ++ ") RETURN count(s) as count"
      parameters := []
      description := "Count " ++ sensor_type ++ " sensors" }
  else
    { cypher := "\nMATCH (s)\nWHERE s:brick_Temperature_Sensor OR s:brick_Power_Sensor OR s:brick_CO2_Sensor\nRETURN count(s) as count"
      parameters := []
      description := "Count all sensors" }

/-- `GraphQLToCypherResolver._resolve_equipment_count`. -/
def resolve_equipment_count (vars : List (String × String)) : CypherQuery :=
  let equipment_type := getA vars "equipmentType" (getA vars "equipment_type" "")
  if equipment_type != "" then
    let brick_label := (lookupA equipment_types equipment_type).getD ("brick_" ++ equipment_type)
    { cypher := "MATCH (eq:" ++ brick_label ++ ") RETURN count(eq) as count"
      parameters := []
      description := "Count " ++ equipment_type ++ " equipment" }
  else
    { cypher := "\nMATCH (eq)\nWHERE eq:brick_Air_Handling_Unit OR eq:brick_Chiller OR eq:brick_Pump\nRETURN count(eq) as count"
      parameters := []
      description := "Count all equipment" }

/-- The "count nodes grouped by type" fallback of
`GraphQLToCypherResolver.resolve`. -/
def defaultCypher : CypherQuery :=
  { cypher := "MATCH (n) RETURN labels(n)[0] as type, count(*) as count"
    parameters := []
    description := "Default query - node type counts" }

/-- `GraphQLToCypherResolver.resolve`. -/
def resolve (graphql_query : String) (vars : List (String × String)) : CypherQuery :=
  let query_lower := lowerAscii graphql_query
  if containsSub query_lower "building(" || containsSub query_lower "building \x7b" then
    if containsSub query_lower "buildings" then resolve_buildings
    else resolve_building vars
  else if containsSub query_lower "floors" then resolve_floors vars
  else if containsSub query_lower "zones" then resolve_zones vars
  else if containsSub query_lower "systems" then resolve_systems vars
  else if containsSub query_lower "equipment" then resolve_equipment vars
  else if containsSub query_lower "sensors" then resolve_sensors vars
  else if containsSub query_lower "meters" then resolve_meters vars
  else if containsSub query_lower "timeseries" then resolve_timeseries vars
  else if containsSub query_lower "sensorcount" then resolve_sensor_count vars
  else if containsSub query_lower "equipmentcount" then resolve_equipment_count vars
  else defaultCypher

/-! ### pipeline.py — result rows

Result rows coming back from the graph engine are string-keyed maps whose
values may be arbitrarily nested (`List[Dict]` with `Any` values).  They
are modelled by the mutual inductive below; `Jval.vnull` is Python `None`.
`Option Jval` is used for Python expressions that may produce `None` as a
"missing" signal. -/

mutual
inductive Jval where
  | vnull
  | vbool (b : Bool)
  | vint (n : Int)
  | vstr (s : String)
  | vobj (fields : Jfields)
  | varr (items : Jitems)
deriving DecidableEq
inductive Jfields where
  | nil
  | cons (key : String) (value : Jval) (rest : Jfields)
deriving DecidableEq
inductive Jitems where
  | nil
  | cons (value : Jval) (rest : Jitems)
deriving DecidableEq
end

def Jfields.toL : Jfields → List (String × Jval)
  | .nil => []
  | .cons k v r => (k, v) :: r.toL

def Jitems.toL : Jitems → List Jval
  | .nil => []
  | .cons v r => v :: r.toL

/-- Python `data[k]`-style lookup (first binding wins). -/
def Jfields.lookup (fs : Jfields) (k : String) : Option Jval :=
  (fs.toL.find? fun p => p.1 == k).map fun p => p.2

/-- Python `k in data`. -/
def Jfields.hasKey (fs : Jfields) (k : String) : Bool :=
  (fs.lookup k).isSome

def Jfields.isNil : Jfields → Bool
  | .nil => true
  | .cons _ _ _ => false

/-- Python truthiness of a row value. -/
def pyTruthy : Jval → Bool
  | .vnull => false
  | .vbool b => b
  | .vint n => !(n == 0)
  | .vstr s => !(s == "")
  | .vobj fs => !fs.isNil
  | .varr .nil => false
  | .varr _ => true

mutual
/-- Python `repr` of a row value (also `str` for non-string values). -/
def pyRepr : Jval → String
  | .vnull => "None"
  | .vbool b => if b then "True" else "False"
  | .vint n => toString n
  | .vstr s => squoteS ++ s ++ squoteS
  | .vobj fs => "\x7b" ++ pyReprFields fs ++ "\x7d"
  | .varr l => "[" ++ pyReprItems l ++ "]"
def pyReprFields : Jfields → String
  | .nil => ""
  | .cons k v .nil => squoteS ++ k ++ squoteS ++ ": " ++ pyRepr v
  | .cons k v rest => squoteS ++ k ++ squoteS ++ ": " ++ pyRepr v ++ ", " ++ pyReprFields rest
def pyReprItems : Jitems → String
  | .nil => ""
  | .cons v .nil => pyRepr v
  | .cons v rest => pyRepr v ++ ", " ++ pyReprItems rest
end

/-- Python `str`/f-string interpolation of a row value. -/
def pyStr : Jval → String
  | .vstr s => s
  | v => pyRepr v

/-! ### pipeline.py — `_clean_results` -/

mutual
/-- `KGPipeline._clean_results` on one value: `Option.none` is the Python
`None` that makes the parent drop the entry. -/
def cleanVal : Jval → Option Jval
  | .vnull => none
  | .vbool b => some (.vbool b)
  | .vint n => some (.vint n)
  | .vstr s => some (.vstr s)
  | .vobj fs =>
    match cleanFields fs with
    | .nil => none
    | f => some (.vobj f)
  | .varr l => some (.varr (cleanItems l))
/-- The dict comprehension of `_clean_results` (skip values cleaning to `None`). -/
def cleanFields : Jfields → Jfields
  | .nil => .nil
  | .cons k v rest =>
    match cleanVal v with
    | some w => .cons k w (cleanFields rest)
    | none => cleanFields rest
/-- The list comprehension of `_clean_results` (empty lists are kept). -/
def cleanItems : Jitems → Jitems
  | .nil => .nil
  | .cons v rest =>
    match cleanVal v with
    | some w => .cons w (cleanItems rest)
    | none => cleanItems rest
end

/-- `KGPipeline._clean_results` applied to the row list handed to
`_format_response` (each row is a dict; rows cleaning to `None` are dropped). -/
def clean_results (rows : List Jfields) : List Jfields :=
  rows.filterMap fun r =>
    match cleanFields r with
    | .nil => none
    | f => some f

/-! ### pipeline.py — response formatter -/

/-- `KGPipeline._extract_name`.  Returns the stored value (which can be
`vnull`, exactly as the Python function can return a stored `None`). -/
def extract_name (data : Jfields) : Option Jval :=
  if data.hasKey "name" then data.lookup "name"
  else if data.hasKey "n.name" then data.lookup "n.name"
  else
    match data.toL.find? fun p => containsSub (lowerAscii p.1) "name" with
    | some p => some p.2
    | none => none

/-- Python `'A'..'Z'` upper-casing of one character. -/
def upperChar (c : Char) : Char :=
  if 97 ≤ c.toNat ∧ c.toNat ≤ 122 then Char.ofNat (c.toNat - 32) else c

def titleChars : List Char → Bool → List Char
  | [], _ => []
  | c :: r, prevAlpha =>
    (if prevAlpha then lowerChar c else upperChar c) :: titleChars r c.isAlpha

/-- Python `str.title()` (ASCII approximation). -/
def asciiTitle (s : String) : String := String.mk (titleChars s.toList false)

/-- `KGPipeline._format_field_name`. -/
def format_field_name (language : String) (key : String) : String :=
  let tr : List (String × String) :=
    [ ("energy_class", if language == "no" then "Energimerke" else "Energy Class")
    , ("area_sqm", if language == "no" then "Areal (m²)" else "Area (m²)")
    , ("year_built", if language == "no" then "Byggeår" else "Year Built")
    , ("address", if language == "no" then "Adresse" else "Address")
    , ("description", if language == "no" then "Beskrivelse" else "Description")
    , ("floors", if language == "no" then "Etasjer" else "Floors")
    , ("systems", if language == "no" then "Systemer" else "Systems")
    , ("meters", if language == "no" then "Målere" else "Meters")
    , ("sensors", if language == "no" then "Sensorer" else "Sensors")
    , ("equipment", if language == "no" then "Utstyr" else "Equipment")
    , ("zones", if language == "no" then "Soner" else "Zones")
    , ("unit", if language == "no" then "Enhet" else "Unit")
    , ("external_id", if language == "no" then "Ekstern ID" else "External ID")
    , ("timeseries", if language == "no" then "Tidsserie" else "Timeseries") ]
  match lookupA tr key with
  | some v => v
  | none => asciiTitle (replaceSub key "_" " ")

mutual
/-- `KGPipeline._find_field_value`: a stored `None` is returned as Python
`None`, i.e. `Option.none` here. -/
def find_field_value : Jval → String → Option Jval
  | .vobj fs, field_name =>
    (match fs.lookup field_name with
     | some .vnull => none
     | some v => some v
     | none => find_in_fields fs field_name)
  | .varr l, field_name => find_in_items l field_name
  | _, _ => none
def find_in_fields : Jfields → String → Option Jval
  | .nil, _ => none
  | .cons _ v rest, f =>
    (match find_field_value v f with
     | some x => some x
     | none => find_in_fields rest f)
def find_in_items : Jitems → String → Option Jval
  | .nil, _ => none
  | .cons v rest, f =>
    (match find_field_value v f with
     | some x => some x
     | none => find_in_items rest f)
end

/-- The `field_mappings` table of `KGPipeline._try_extract_specific_answer`:
(question pattern, field name, answer text before the value, after it). -/
def field_mappings : List (String × String × String × String) :=
  [ ("energimerke", "energy_class", "Energimerket er: ", "")
  , ("energiklasse", "energy_class", "Energiklassen er: ", "")
  , ("adresse", "address", "Adressen er: ", "")
  , ("areal", "area_sqm", "Arealet er: ", " m²")
  , ("størrelse", "area_sqm", "Størrelsen er: ", " m²")
  , ("byggeår", "year_built", "Bygget ble bygget i: ", "")
  , ("når ble", "year_built", "Bygget ble bygget i: ", "")
  , ("navn", "name", "Navnet er: ", "")
  , ("hva heter", "name", "Navnet er: ", "")
  , ("energy class", "energy_class", "The energy class is: ", "")
  , ("energy rating", "energy_class", "The energy rating is: ", "")
  , ("address", "address", "The address is: ", "")
  , ("area", "area_sqm", "The area is: ", " m²")
  , ("size", "area_sqm", "The size is: ", " m²")
  , ("built", "year_built", "It was built in: ", "")
  , ("year", "year_built", "Year built: ", "") ]

/-- The pattern loop of `_try_extract_specific_answer`. -/
def firstAnswer : List (String × String × String × String) → String → Jfields → Option String
  | [], _, _ => none
  | (pattern, field_name, tb, ta) :: rest, ql, result =>
    if containsSub ql pattern then
      match result.lookup field_name with
      | some .vnull =>
        (match find_field_value (.vobj result) field_name with
         | some w => some (tb ++ pyStr w ++ ta)
         | none => firstAnswer rest ql result)
      | some v => some (tb ++ pyStr v ++ ta)
      | none =>
        (match find_field_value (.vobj result) field_name with
         | some w => some (tb ++ pyStr w ++ ta)
         | none => firstAnswer rest ql result)
    else firstAnswer rest ql result

/-- `KGPipeline._try_extract_specific_answer`. -/
def try_extract_specific_answer (results : List Jfields) (intent : ExtractedIntent) :
    Option String :=
  match results with
  | [] => none
  | r0 :: _ =>
    if intent.original_query == "" then none
    else
      let query_lower := lowerAscii intent.original_query
      let result :=
        match r0.lookup "b" with
        | some (.vobj inner) => inner
        | _ => r0
      firstAnswer field_mappings query_lower result

/-- `KGPipeline._format_aggregate_response` (the final `str(results)` branch
is only reachable with an empty row list, where it renders `[]`). -/
def format_aggregate_response (language : String) (results : List Jfields) : String :=
  match results with
  | r0 :: _ =>
    if r0.hasKey "count" then
      let count := (r0.lookup "count").getD .vnull
      if language == "no" then "Antall: " ++ pyStr count else "Count: " ++ pyStr count
    else
      if language == "no" then "Antall: " ++ toString results.length
      else "Count: " ++ toString results.length
  | [] => "[]"

/-- `key.replace("_", " ").replace("Type", "")` of `_format_list_response`. -/
def niceKey (key : String) : String :=
  replaceSub (replaceSub key "_" " ") "Type" ""

/-- The per-row parts of `KGPipeline._format_list_response`. -/
def list_row_parts (row : Jfields) : List String :=
  let base :=
    match extract_name row with
    | some v => if pyTruthy v then [pyStr v] else []
    | none => []
  base ++ row.toL.filterMap fun p =>
    if p.1 == "name" || p.1 == "id" then none
    else
      match p.2 with
      | .vnull => none
      | .vstr s => if s == "" then none else some (niceKey p.1 ++ ": " ++ s)
      | .vobj _ => none
      | .varr .nil => none
      | .varr l => some (niceKey p.1 ++ ": [" ++ toString l.toL.length ++ " items]")
      | v => some (niceKey p.1 ++ ": " ++ pyStr v)

def format_list_rows : Nat → List Jfields → List String
  | _, [] => []
  | i, r :: rest =>
    ("  " ++ toString i ++ ". " ++ String.intercalate " | " (list_row_parts r)) ::
    format_list_rows (i + 1) rest

/-- `KGPipeline._format_list_response` (the Python `graphql_query` argument
is unused by its body). -/
def format_list_response (language : String) (results : List Jfields)
    (_gql : GeneratedGraphQL) : String :=
  let header :=
    if language == "no" then "Fant " ++ toString results.length ++ " resultater:"
    else "Found " ++ toString results.length ++ " results:"
  let lines := [header, ""] ++ format_list_rows 1 (results.take 15)
  let lines :=
    if results.length > 15 then
      let remaining := results.length - 15
      lines ++
        [ if language == "no" then "\n  ... og " ++ toString remaining ++ " flere resultater"
          else "\n  ... and " ++ toString remaining ++ " more results" ]
    else lines
  String.intercalate "\n" lines

/-- One truncated list item of `KGPipeline._format_entity_response`. -/
def entityItemLine (item : Jval) : String :=
  match item with
  | .vobj f =>
    let item_name :=
      match f.lookup "name" with
      | some v => pyStr v
      | none =>
        match f.lookup "id" with
        | some v => pyStr v
        | none => pyRepr (.vobj f)
    let item_type :=
      match f.lookup "type" with
      | some v => v
      | none =>
        match f.lookup "level" with
        | some v => v
        | none => .vstr ""
    if pyTruthy item_type then "    • " ++ item_name ++ " (" ++ pyStr item_type ++ ")"
    else "    • " ++ item_name
  | v => "    • " ++ pyStr v

/-- The field loop of `KGPipeline._format_entity_response`. -/
def entity_lines (language : String) (entity : Jfields) : List String :=
  entity.toL.flatMap fun p =>
    match p.2 with
    | .vnull => []
    | value =>
      if p.1 == "name" || p.1 == "id" then []
      else
        let rk := format_field_name language p.1
        match value with
        | .vobj inner =>
          ("  " ++ rk ++ ":") ::
            inner.toL.filterMap fun q =>
              match q.2 with
              | .vnull => none
              | v => some ("    • " ++ format_field_name language q.1 ++ ": " ++ pyStr v)
        | .varr l =>
          let items := l.toL
          if items.length > 0 then
            ("  " ++ rk ++ ":") ::
            ((items.take 5).map entityItemLine ++
              (if items.length > 5 then ["    ... +" ++ toString (items.length - 5) ++ " mer"]
               else []))
          else []
        | v => ["  " ++ rk ++ ": " ++ pyStr v]

/-- `KGPipeline._format_entity_response`. -/
def format_entity_response (language : String) (results : List Jfields) : String :=
  match results with
  | [] => if language == "no" then "Entitet ikke funnet." else "Entity not found."
  | e0 :: _ =>
    let entity :=
      match e0.toL with
      | [(_, .vobj inner)] => inner
      | _ => e0
    let nameLines :=
      match extract_name entity with
      | some v => if pyTruthy v then ["📍 " ++ pyStr v, ""] else []
      | none => []
    String.intercalate "\n" (nameLines ++ entity_lines language entity)

/-- One value's lines in `KGPipeline._format_traversal_response`. -/
def trav_value_lines (nice_key : String) (value : Jval) : List String :=
  match value with
  | .vobj inner =>
    let nested := inner.toL.filterMap fun q =>
      if pyTruthy q.2 then some (q.1 ++ "=" ++ pyStr q.2) else none
    if nested.isEmpty then []
    else ["      " ++ nice_key ++ ": " ++ String.intercalate ", " nested]
  | .varr l =>
    let items := l.toL
    if items.length > 0 then
      match items with
      | .vobj _ :: _ =>
        ("      " ++ nice_key ++ ":") ::
          ((items.take 5).filterMap fun item =>
            match item with
            | .vobj f =>
              (match extract_name f with
               | some v => if pyTruthy v then some ("        - " ++ pyStr v) else none
               | none => none)
            | _ => none) ++
          (if items.length > 5 then ["        ... +" ++ toString (items.length - 5) ++ " more"]
           else [])
      | _ => ["      " ++ nice_key ++ ": " ++ String.intercalate ", " ((items.take 5).map pyStr)]
    else []
  | .vstr s => if s == "" then [] else ["      " ++ nice_key ++ ": " ++ s]
  | v => ["      " ++ nice_key ++ ": " ++ pyStr v]

/-- One row's lines in `KGPipeline._format_traversal_response`. -/
def trav_row_lines (row : Jfields) : List String :=
  let first :=
    match extract_name row with
    | some v => if pyTruthy v then "  • " ++ pyStr v else "  •"
    | none => "  •"
  first :: row.toL.flatMap fun p =>
    if p.1 == "name" || p.1 == "id" then []
    else
      match p.2 with
      | .vnull => []
      | v => trav_value_lines (asciiTitle (replaceSub p.1 "_" " ")) v

/-- `KGPipeline._format_traversal_response`. -/
def format_traversal_response (language : String) (results : List Jfields)
    (gql : GeneratedGraphQL) : String :=
  let lines := ["📊 " ++ gql.description, ""]
  let lines := lines ++ (results.take 20).flatMap fun row => trav_row_lines row ++ [""]
  let lines :=
    if results.length > 20 then
      let remaining := results.length - 20
      lines ++
        [ if language == "no" then "... og " ++ toString remaining ++ " flere resultater"
          else "... and " ++ toString remaining ++ " more results" ]
    else lines
  String.intercalate "\n" lines

/-- One row's line in `KGPipeline._format_default_response`. -/
def default_row_line (row : Jfields) : String :=
  let base :=
    match extract_name row with
    | some v => if pyTruthy v then [pyStr v] else []
    | none => []
  let parts := base ++ row.toL.filterMap fun p =>
    if p.1 == "name" then none
    else
      match p.2 with
      | .vnull => none
      | .vobj _ => none
      | .varr _ => none
      | v => some (p.1 ++ ": " ++ pyStr v)
  "  • " ++ String.intercalate ", " parts

/-- `KGPipeline._format_default_response`. -/
def format_default_response (results : List Jfields) : String :=
  String.intercalate "\n"
    (("Resultater (" ++ toString results.length ++ "):") :: "" ::
      (results.take 10).map default_row_line)

/-- `KGPipeline._format_response`. -/
def format_response (language : String) (results : List Jfields)
    (intent : ExtractedIntent) (gql : GeneratedGraphQL) : String :=
  let results := clean_results results
  if results.isEmpty then
    if language == "no" then "Ingen resultater funnet for spørringen din."
    else "No results found for your query."
  else
    let specific := (try_extract_specific_answer results intent).getD ""
    if specific != "" then specific
    else
      match intent.intent_type with
      | .query_aggregate => format_aggregate_response language results
      | .query_list => format_list_response language results gql
      | .query_entity => format_entity_response language results
      | .query_traverse => format_traversal_response language results gql
      | _ => format_default_response results

/-! ### pipeline.py — canned failure responses and `process` -/

/-- `KGPipeline._low_confidence_response`. -/
def low_confidence_response (language : String) (intent : ExtractedIntent) : String :=
  if language == "no" then
    "Beklager, jeg forstod ikke helt spørsmålet: \"" ++ intent.original_query ++
    "\"\n\nPrøv å spørre om:\n  • Sensorer i bygget eller en sone\n  • Utstyr som AHU, kjølemaskin, pumper\n  • Målere og energidata\n  • Soner og etasjer"
  else
    "Sorry, I didn" ++ squoteS ++ "t understand: \"" ++ intent.original_query ++
    "\"\n\nTry asking about:\n  • Sensors in building or zone\n  • Equipment like AHU, chiller, pumps\n  • Meters and energy data\n  • Zones and floors"

/-- `KGPipeline._connection_error_response`. -/
def connection_error_response (language : String) : String :=
  if language == "no" then
    "Kunne ikke koble til FalkorDB.\nSjekk at databasen kjører: docker start falkordb"
  else
    "Could not connect to FalkorDB.\nMake sure the database is running: docker start falkordb"

/-- `KGPipeline._query_error_response`. -/
def query_error_response (language : String) (error : String) : String :=
  if language == "no" then "Feil ved kjøring av spørring: " ++ error
  else "Query execution error: " ++ error

/-- `PipelineResult`; `debug_stages` is the `"stages"` entry of the Python
`debug_info` dict (the part of it the properties below are about). -/
structure PipelineResult where
  success : Bool
  original_query : String
  extracted_intent : Option ExtractedIntent
  graphql_query : Option GeneratedGraphQL
  cypher_query : Option CypherQuery
  raw_results : Option (List Jfields)
  natural_response : String
  debug_stages : List String
deriving DecidableEq

/-- Behaviour of the external graph engine seen by stage 4 of `process`:
connection failure (`connect()` returning `False`), the query call raising
an error, or returning result rows. -/
inductive ExecOutcome where
  | connectFail
  | execError (msg : String)
  | ok (rows : List Jfields)
deriving DecidableEq

/-- `KGPipeline.process`.  The two external boundaries are parameters: the
intent extractor `extract` (the LLM path is external; instantiate it with
`extract_rule_based` for the LLM-disabled configuration) and the graph
engine `outcome`.  The confidence threshold 0.3 is the hundredths value
30. -/
def process (language : String) (extract : String → ExtractedIntent)
    (outcome : ExecOutcome) (query : String) : PipelineResult :=
  let stages := ["1_intent_extraction"]
  let intent := extract query
  if intent.confidence < 30 then
    { success := false
      original_query := query
      extracted_intent := some intent
      graphql_query := none
      cypher_query := none
      raw_results := none
      natural_response := low_confidence_response language intent
      debug_stages := stages }
  else
    let stages := stages ++ ["2_graphql_generation"]
    let graphql_query := generate intent.intent_type intent.entity_class intent.parameters none
    let stages := stages ++ ["3_cypher_resolution"]
    let cypher_query := resolve graphql_query.query graphql_query.vars
    let stages := stages ++ ["4_falkordb_execution"]
    match outcome with
    | .connectFail =>
      { success := false
        original_query := query
        extracted_intent := some intent
        graphql_query := some graphql_query
        cypher_query := some cypher_query
        raw_results := none
        natural_response := connection_error_response language
        debug_stages := stages }
    | .execError msg =>
      { success := false
        original_query := query
        extracted_intent := some intent
        graphql_query := some graphql_query
        cypher_query := some cypher_query
        raw_results := none
        natural_response := query_error_response language msg
        debug_stages := stages }
    | .ok rows =>
      let stages := stages ++ ["5_response_formatting"]
      { success := true
        original_query := query
        extracted_intent := some intent
        graphql_query := some graphql_query
        cypher_query := some cypher_query
        raw_results := some rows
        natural_response := format_response language rows intent graphql_query
        debug_stages := stages }

/-! ### Derived notions used by the properties -/

mutual
/-- No empty map occurs anywhere inside the value. -/
def noEmptyObjV : Jval → Bool
  | .vobj fs => !fs.isNil && noEmptyObjF fs
  | .varr l => noEmptyObjI l
  | _ => true
def noEmptyObjF : Jfields → Bool
  | .nil => true
  | .cons _ v rest => noEmptyObjV v && noEmptyObjF rest
def noEmptyObjI : Jitems → Bool
  | .nil => true
  | .cons v rest => noEmptyObjV v && noEmptyObjI rest
end

/-- The "entity matched" corroborating signal of the rule-based extractor. -/
def entity_signal (q : String) : Bool :=
  (find_entity_by_text (lowerAscii q)).isSome

/-- The "traversal matched" corroborating signal of the rule-based extractor. -/
def traversal_signal (q : String) : Bool :=
  (find_traversal_by_intent (lowerAscii q)).isSome

/-- The "intent keyword matched" corroborating signal of the rule-based
extractor. -/
def intent_signal (q : String) : Bool :=
  detect_intent (lowerAscii q) != IntentType.unknown

/-- The confidence formula of the rule-based extractor as stated in the
specification: `min(0.85, 0.5 + 0.2·entity + 0.15·traversal + 0.1·intent)`,
in hundredths. -/
def rule_confidence (e t i : Bool) : Nat :=
  pymin (50 + (if e then 20 else 0) + (if t then 15 else 0) + (if i then 10 else 0)) 85

/-- An extractor outcome with confidence 0.2 (as in the specification's
low-confidence scenario), standing for an LLM-path result below the
threshold. -/
def extractWithConfidence20 (q : String) : ExtractedIntent :=
  { intent_type := .unknown
    entity_class := none
    parameters := []
    traversal_hint := none
    confidence := 20
    original_query := q }

/-- The fixed connectivity-problem phrase per locale (first line of
`_connection_error_response`). -/
def connectionPhrase (language : String) : String :=
  if language == "no" then "Kunne ikke koble til FalkorDB" else "Could not connect to FalkorDB"

/-- The fixed execution-error phrase per locale (prefix of
`_query_error_response`). -/
def executionErrorPhrase (language : String) : String :=
  if language == "no" then "Feil ved kjøring av spørring: " else "Query execution error: "

/-- Stage outputs for the question "Vis alle temperatursensorer" on the
rule-based path. -/
def c1_intent : ExtractedIntent := extract_rule_based "Vis alle temperatursensorer"

def c1_graphql : GeneratedGraphQL :=
  generate c1_intent.intent_type c1_intent.entity_class c1_intent.parameters none

def c1_cypher : CypherQuery := resolve c1_graphql.query c1_graphql.vars

/-- Stage outputs for the question "Hvor mange etasjer har bygningen?" on
the rule-based path. -/
def c4_intent : ExtractedIntent := extract_rule_based "Hvor mange etasjer har bygningen?"

def c4_graphql : GeneratedGraphQL :=
  generate c4_intent.intent_type c4_intent.entity_class c4_intent.parameters none

/-- A single-entity Floor lookup with a non-empty id variable. -/
def c2_floor_lookup : GeneratedGraphQL :=
  generate .query_entity (some .floor) [("id", "f1")] none

/-- A single-entity AHU (equipment) lookup. -/
def c10_ahu_lookup : GeneratedGraphQL := generate .query_entity (some .ahu) [] none

/-! ### Helper lemmas -/

theorem mem_suffixes_self (l : List Char) : l ∈ suffixes l := by
  cases l <;> simp [suffixes]

theorem isPrefixOf_append_self (l m : List Char) : l.isPrefixOf (l ++ m) = true := by
  induction l with
  | nil => simp [List.isPrefixOf]
  | cons c cs ih => simp [List.isPrefixOf, ih]

/-- A string contains every prefix of itself. -/
theorem containsSub_left (a b : String) : containsSub (a ++ b) a = true := by
  unfold containsSub
  rw [List.any_eq_true]
  refine ⟨(a ++ b).toList, mem_suffixes_self _, ?_⟩
  have h : (a ++ b).toList = a.toList ++ b.toList := rfl
  rw [h]
  exact isPrefixOf_append_self _ _

/-- Query text matching none of the recognized root-operation substrings
resolves to the generic fallback. -/
theorem resolve_unmatched (q : String) (vars : List (String × String))
    (h1 : containsSub (lowerAscii q) "building(" = false)
    (h2 : containsSub (lowerAscii q) "building \x7b" = false)
    (h3 : containsSub (lowerAscii q) "floors" = false)
    (h4 : containsSub (lowerAscii q) "zones" = false)
    (h5 : containsSub (lowerAscii q) "systems" = false)
    (h6 : containsSub (lowerAscii q) "equipment" = false)
    (h7 : containsSub (lowerAscii q) "sensors" = false)
    (h8 : containsSub (lowerAscii q) "meters" = false)
    (h9 : containsSub (lowerAscii q) "timeseries" = false)
    (h10 : containsSub (lowerAscii q) "sensorcount" = false)
    (h11 : containsSub (lowerAscii q) "equipmentcount" = false) :
    resolve q vars = defaultCypher := by
  unfold resolve
  simp [h1, h2, h3, h4, h5, h6, h7, h8, h9, h10, h11]

mutual
theorem cleanVal_noEmptyObj : ∀ v w, cleanVal v = some w → noEmptyObjV w = true
  | .vnull, w, h => by simp [cleanVal] at h
  | .vbool b, w, h => by simp only [cleanVal, Option.some.injEq] at h; subst h; rfl
  | .vint n, w, h => by simp only [cleanVal, Option.some.injEq] at h; subst h; rfl
  | .vstr s, w, h => by simp only [cleanVal, Option.some.injEq] at h; subst h; rfl
  | .vobj fs, w, h => by
    have hf := cleanFields_noEmptyObj fs
    cases hfs : cleanFields fs with
    | nil => unfold cleanVal at h; rw [hfs] at h; simp at h
    | cons k v rest =>
      unfold cleanVal at h
      rw [hfs] at h
      simp only [Option.some.injEq] at h
      subst h
      rw [hfs] at hf
      simp [noEmptyObjV, Jfields.isNil, hf]
  | .varr l, w, h => by
    simp only [cleanVal, Option.some.injEq] at h
    subst h
    simp [noEmptyObjV, cleanItems_noEmptyObj l]
theorem cleanFields_noEmptyObj : ∀ fs, noEmptyObjF (cleanFields fs) = true
  | .nil => rfl
  | .cons k v rest => by
    unfold cleanFields
    cases hv : cleanVal v with
    | none => exact cleanFields_noEmptyObj rest
    | some w =>
      simp [noEmptyObjF, cleanVal_noEmptyObj v w hv, cleanFields_noEmptyObj rest]
theorem cleanItems_noEmptyObj : ∀ l, noEmptyObjI (cleanItems l) = true
  | .nil => rfl
  | .cons v rest => by
    unfold cleanItems
    cases hv : cleanVal v with
    | none => exact cleanItems_noEmptyObj rest
    | some w =>
      simp [noEmptyObjI, cleanVal_noEmptyObj v w hv, cleanItems_noEmptyObj rest]
end

/-! ### Claims -/

/-- C1: for the question "Vis alle temperatursensorer" on the rule-based
(LLM-disabled) path, the extractor returns intent kind List, entity type
TemperatureSensor and confidence at least 0.5 (here 50 hundredths); the
generator's query uses the pluralized "sensors" operation carrying the
temperature-type filter argument; and the resolver's Cypher text contains
the temperature-sensor label filter `brick_Temperature_Sensor`. -/
theorem c1_temperature_sensor_scenario :
    c1_intent.intent_type = IntentType.query_list ∧
    c1_intent.entity_class = some BrickClass.temperature_sensor ∧
    50 ≤ c1_intent.confidence ∧
    c1_graphql.operation_name = "ListSensors" ∧
    containsSub c1_graphql.query "sensors(sensorType: \"Temperature_Sensor\")" = true ∧
    containsSub c1_cypher.cypher "brick_Temperature_Sensor" = true := by
  decide

/-- C2 counterexample: the single-entity Floor lookup carries the non-empty
variable `id`, but its query text matches none of the resolver's recognized
operation substrings, so `resolve` returns the generic fallback whose
parameter map is empty — the key `id` is dropped, refuting the round-trip
claim for arbitrary generated queries. -/
theorem c2_roundtrip_counterexample :
    ("id", "f1") ∈ c2_floor_lookup.vars ∧
    (resolve c2_floor_lookup.query c2_floor_lookup.vars).parameters = [] ∧
    hasKeyA (resolve c2_floor_lookup.query c2_floor_lookup.vars).parameters "id" = false := by
  decide

/-- C2 amended: the round-trip holds for the single-entity Building lookup
(for every parameter map, every key of the generated variables — all of
which are `id`/`name` — appears in the resolved parameter map); other
generated queries may drop or rename variable keys. -/
theorem c2_building_roundtrip (parameters : List (String × String)) (k v : String)
    (hmem : (k, v) ∈ (generate .query_entity (some .building) parameters none).vars) :
    hasKeyA
      (resolve (generate .query_entity (some .building) parameters none).query
        (generate .query_entity (some .building) parameters none).vars).parameters k = true := by
  have hres :
      resolve (generate .query_entity (some .building) parameters none).query
        (generate .query_entity (some .building) parameters none).vars =
      resolve_building (generate .query_entity (some .building) parameters none).vars := by
    cases h1 : hasKeyA parameters "id" <;>
      cases h2 : (hasKeyA parameters "name" || hasKeyA parameters "building_name") <;>
      simp only [generate, generate_single_query, h1, h2, if_true, if_false] <;>
      rfl
  have hkeys : k = "id" ∨ k = "name" := by
    cases h1 : hasKeyA parameters "id" <;>
      cases h2 : (hasKeyA parameters "name" || hasKeyA parameters "building_name") <;>
      simp only [generate, generate_single_query, h1, h2, if_true, if_false] at hmem <;>
      simp at hmem
    · exact Or.inr hmem.1
    · exact Or.inl hmem.1
    · rcases hmem with ⟨hk, -⟩ | ⟨hk, -⟩
      · exact Or.inl hk
      · exact Or.inr hk
  rw [hres]
  rcases hkeys with rfl | rfl <;> rfl

theorem c2_building_roundtrip_witness :
    ("name", "opera") ∈ (generate .query_entity (some .building) [("name", "opera")] none).vars ∧
    hasKeyA
      (resolve (generate .query_entity (some .building) [("name", "opera")] none).query
        (generate .query_entity (some .building) [("name", "opera")] none).vars).parameters
      "name" = true :=
  ⟨by decide, c2_building_roundtrip [("name", "opera")] "name" "opera" (by decide)⟩

/-- C3 counterexample: a row holding an empty list value survives the
cleanup unchanged — `_clean_results` removes empty maps but keeps empty
lists, refuting "no surviving row contains an empty map value or an empty
list value". -/
theorem c3_empty_list_survives :
    clean_results [Jfields.cons "a" (.varr .nil) .nil] =
      [Jfields.cons "a" (.varr .nil) .nil] ∧
    (Jfields.cons "a" (.varr .nil) .nil).lookup "a" = some (.varr .nil) := by
  decide

/-- C3 amended: after the cleanup step no surviving row is empty and no
surviving row contains an empty map value anywhere (a nested map with no
non-null children is removed entirely); empty list values may survive. -/
theorem c3_cleanup_no_empty_maps (rows : List Jfields) (r : Jfields)
    (hr : r ∈ clean_results rows) : r.isNil = false ∧ noEmptyObjF r = true := by
  unfold clean_results at hr
  rw [List.mem_filterMap] at hr
  obtain ⟨a, ha, heq⟩ := hr
  cases hfa : cleanFields a with
  | nil => rw [hfa] at heq; simp at heq
  | cons k v rest =>
    rw [hfa] at heq
    simp only [Option.some.injEq] at heq
    subst heq
    refine ⟨rfl, ?_⟩
    have h := cleanFields_noEmptyObj a
    rw [hfa] at h
    exact h

theorem c3_cleanup_witness :
    (Jfields.cons "x" (.vint 1) .nil) ∈ clean_results [Jfields.cons "x" (.vint 1) .nil] ∧
    ((Jfields.cons "x" (.vint 1) .nil).isNil = false ∧
      noEmptyObjF (Jfields.cons "x" (.vint 1) .nil) = true) :=
  ⟨by decide, c3_cleanup_no_empty_maps [Jfields.cons "x" (.vint 1) .nil] _ (by decide)⟩

/-- C4 counterexample: on the rule-based path the question
"Hvor mange etasjer har bygningen?" is extracted as intent kind List (the
keyword "hvor mange" sits in the List table, which is checked before the
Aggregate table) with entity Building ("bygning" matches a Building synonym
before any Floor synonym) — not Aggregate/Floor as claimed. -/
theorem c4_floor_count_counterexample :
    c4_intent.intent_type = IntentType.query_list ∧
    c4_intent.intent_type ≠ IntentType.query_aggregate ∧
    c4_intent.entity_class = some BrickClass.building ∧
    c4_intent.entity_class ≠ some BrickClass.floor := by
  decide

/-- C4 amended: on the rule-based path the question yields intent kind List
and entity Building, so the generator emits the ListBuildings operation
(not a count); independently, the aggregate formatter given the one-row
result `\x7b"count": 3\x7d` and locale "no" renders exactly "Antall: 3". -/
theorem c4_floor_count_amended :
    c4_intent.intent_type = IntentType.query_list ∧
    c4_intent.entity_class = some BrickClass.building ∧
    c4_graphql.operation_name = "ListBuildings" ∧
    format_aggregate_response "no" [Jfields.cons "count" (.vint 3) .nil] = "Antall: 3" := by
  decide

/-- C5: the rule-based extractor's confidence equals
`min(0.85, 0.5 + 0.2·entity + 0.15·traversal + 0.1·intent)` (in exact
hundredths), is monotonically non-decreasing in the three corroborating
signals, and never exceeds 0.85. -/
theorem c5_confidence_formula (q : String) :
    (extract_rule_based q).confidence =
      rule_confidence (entity_signal q) (traversal_signal q) (intent_signal q) ∧
    (extract_rule_based q).confidence ≤ 85 ∧
    (∀ e t i e' t' i' : Bool, e ≤ e' → t ≤ t' → i ≤ i' →
      rule_confidence e t i ≤ rule_confidence e' t' i') := by
  have hb : ∀ e t i : Bool, rule_confidence e t i ≤ 85 := by decide
  have hf : (extract_rule_based q).confidence =
      rule_confidence (entity_signal q) (traversal_signal q) (intent_signal q) := by
    unfold extract_rule_based rule_confidence entity_signal traversal_signal intent_signal
    by_cases h1 : (find_entity_by_text (lowerAscii q)).isSome = true <;>
      by_cases h2 : (find_traversal_by_intent (lowerAscii q)).isSome = true <;>
      by_cases h3 : detect_intent (lowerAscii q) = IntentType.unknown <;>
      simp [h1, h2, h3, Option.isSome_map, bne]
  exact ⟨hf, by rw [hf]; exact hb _ _ _, by decide⟩

theorem c5_confidence_witness :
    rule_confidence false false false ≤ rule_confidence true true true :=
  (c5_confidence_formula "x").2.2 false false false true true true
    (by decide) (by decide) (by decide)

/-- C6: whenever the extracted intent's confidence is strictly below the
0.3 threshold (30 hundredths), `process` short-circuits: it returns a
failed result carrying the intent but no generated query, no resolved
query and no rows, with the fixed low-confidence response for the locale,
and only the intent-extraction stage was executed. -/
theorem c6_low_confidence_short_circuit (language : String)
    (extract : String → ExtractedIntent) (outcome : ExecOutcome) (query : String)
    (h : (extract query).confidence < 30) :
    process language extract outcome query =
      { success := false
        original_query := query
        extracted_intent := some (extract query)
        graphql_query := none
        cypher_query := none
        raw_results := none
        natural_response := low_confidence_response language (extract query)
        debug_stages := ["1_intent_extraction"] } := by
  simp only [process]
  rw [if_pos h]

theorem c6_low_confidence_witness :
    (extractWithConfidence20 "Hei").confidence < 30 ∧
    process "no" extractWithConfidence20 .connectFail "Hei" =
      { success := false
        original_query := "Hei"
        extracted_intent := some (extractWithConfidence20 "Hei")
        graphql_query := none
        cypher_query := none
        raw_results := none
        natural_response := low_confidence_response "no" (extractWithConfidence20 "Hei")
        debug_stages := ["1_intent_extraction"] } :=
  ⟨by decide,
    c6_low_confidence_short_circuit "no" extractWithConfidence20 .connectFail "Hei" (by decide)⟩

/-- C7: `resolve` is total, and whenever the query text matches none of the
recognized root-operation substrings the result is exactly the generic
"count nodes grouped by type" template with an empty parameter map. -/
theorem c7_unrecognized_falls_back (q : String) (vars : List (String × String))
    (h1 : containsSub (lowerAscii q) "building(" = false)
    (h2 : containsSub (lowerAscii q) "building \x7b" = false)
    (h3 : containsSub (lowerAscii q) "floors" = false)
    (h4 : containsSub (lowerAscii q) "zones" = false)
    (h5 : containsSub (lowerAscii q) "systems" = false)
    (h6 : containsSub (lowerAscii q) "equipment" = false)
    (h7 : containsSub (lowerAscii q) "sensors" = false)
    (h8 : containsSub (lowerAscii q) "meters" = false)
    (h9 : containsSub (lowerAscii q) "timeseries" = false)
    (h10 : containsSub (lowerAscii q) "sensorcount" = false)
    (h11 : containsSub (lowerAscii q) "equipmentcount" = false) :
    resolve q vars = defaultCypher ∧
    defaultCypher.parameters = [] ∧
    defaultCypher.cypher = "MATCH (n) RETURN labels(n)[0] as type, count(*) as count" :=
  ⟨resolve_unmatched q vars h1 h2 h3 h4 h5 h6 h7 h8 h9 h10 h11, rfl, rfl⟩

theorem c7_unrecognized_witness :
    resolve "hello" [] = defaultCypher :=
  (c7_unrecognized_falls_back "hello" [] (by decide) (by decide) (by decide) (by decide)
    (by decide) (by decide) (by decide) (by decide) (by decide) (by decide) (by decide)).1

/-- C8: past the confidence threshold, a graph-engine connection failure or
execution error makes `process` return a failed result with no rows and
the locale's connectivity-problem (resp. execution-error) phrase in the
response; the stage trail shows execution was reached exactly once and
nothing after it ran (no retry). -/
theorem c8_execution_failure (language : String) (extract : String → ExtractedIntent)
    (query msg : String) (h : ¬ (extract query).confidence < 30) :
    ((process language extract .connectFail query).success = false ∧
      (process language extract .connectFail query).raw_results = none ∧
      (process language extract .connectFail query).natural_response =
        connection_error_response language ∧
      (process language extract .connectFail query).debug_stages =
        ["1_intent_extraction", "2_graphql_generation", "3_cypher_resolution",
          "4_falkordb_execution"]) ∧
    ((process language extract (.execError msg) query).success = false ∧
      (process language extract (.execError msg) query).raw_results = none ∧
      (process language extract (.execError msg) query).natural_response =
        query_error_response language msg ∧
      (process language extract (.execError msg) query).debug_stages =
        ["1_intent_extraction", "2_graphql_generation", "3_cypher_resolution",
          "4_falkordb_execution"]) ∧
    containsSub (connection_error_response language) (connectionPhrase language) = true ∧
    containsSub (query_error_response language msg) (executionErrorPhrase language) = true := by
  refine ⟨?_, ?_, ?_, ?_⟩
  · simp only [process]
    rw [if_neg h]
    exact ⟨rfl, rfl, rfl, rfl⟩
  · simp only [process]
    rw [if_neg h]
    exact ⟨rfl, rfl, rfl, rfl⟩
  · cases hl : language == "no" <;>
      simp only [connection_error_response, connectionPhrase, hl, if_true, if_false] <;>
      decide
  · cases hl : language == "no" <;>
      simp only [query_error_response, executionErrorPhrase, hl, if_true, if_false] <;>
      exact containsSub_left _ msg

theorem c8_execution_failure_witness :
    ¬ (extract_rule_based "Hei").confidence < 30 ∧
    (process "no" extract_rule_based .connectFail "Hei").success = false ∧
    (process "no" extract_rule_based .connectFail "Hei").raw_results = none :=
  ⟨by decide,
    (c8_execution_failure "no" extract_rule_based "Hei" "boom" (by decide)).1.1,
    (c8_execution_failure "no" extract_rule_based "Hei" "boom" (by decide)).1.2.1⟩

/-- C9: `generate` is deterministic — two calls with identical intent kind,
entity class, parameter map and requested fields produce identical results
(in particular byte-identical query text); the embedding is a pure
function because the Python method only reads state fixed at construction
time. -/
theorem c9_generate_deterministic (it it' : IntentType) (ec ec' : Option BrickClass)
    (ps ps' : List (String × String)) (rf rf' : Option (List String))
    (h1 : it = it') (h2 : ec = ec') (h3 : ps = ps') (h4 : rf = rf') :
    generate it ec ps rf = generate it' ec' ps' rf' ∧
    (generate it ec ps rf).query = (generate it' ec' ps' rf').query := by
  subst h1 h2 h3 h4
  exact ⟨rfl, rfl⟩

theorem c9_generate_deterministic_witness :
    generate .query_list (some .temperature_sensor) [] none =
      generate .query_list (some .temperature_sensor) [] none :=
  (c9_generate_deterministic .query_list .query_list (some .temperature_sensor)
    (some .temperature_sensor) [] [] none none rfl rfl rfl rfl).1

/-- C10 counterexample: the singular Equipment (AHU) lookup does not fall
back — it reaches the equipment-specific "Get all equipment" template —
refuting "only the Building singular lookup reaches an entity-specific
template". -/
theorem c10_equipment_reaches_template :
    resolve c10_ahu_lookup.query c10_ahu_lookup.vars = resolve_equipment [] ∧
    resolve_equipment [] ≠ defaultCypher ∧
    (resolve_equipment []).description = "Get all equipment" := by
  decide

/-- C10 amended: every single-entity lookup whose entity maps to Floor,
HVAC zone, System, Sensor or Meter resolves to the generic fallback with
empty parameters (its singular operation name matches no resolver
substring); the Building, Equipment and Timeseries singular lookups are
the ones reaching entity-specific templates. -/
theorem c10_singular_lookups_fall_back (ec : BrickClass) (parameters : List (String × String))
    (hec : ec ∈ [BrickClass.floor, .hvac_zone, .hvac_system, .electrical_system,
      .temperature_sensor, .power_sensor, .co2_sensor, .electrical_meter]) :
    resolve (generate .query_entity (some ec) parameters none).query
      (generate .query_entity (some ec) parameters none).vars = defaultCypher ∧
    resolve (generate .query_entity (some .building) [] none).query
      (generate .query_entity (some .building) [] none).vars = resolve_building [] ∧
    resolve (generate .query_entity (some .timeseries) [] none).query
      (generate .query_entity (some .timeseries) [] none).vars = resolve_timeseries [] := by
  refine ⟨?_, by decide, by decide⟩
  simp only [List.mem_cons, List.not_mem_nil, or_false] at hec
  rcases hec with rfl | rfl | rfl | rfl | rfl | rfl | rfl | rfl <;>
    (cases h1 : hasKeyA parameters "id" <;>
      cases h2 : (hasKeyA parameters "name" || hasKeyA parameters "building_name") <;>
      simp only [generate, generate_single_query, h1, h2, if_true, if_false] <;>
      rfl)

theorem c10_singular_fallback_witness :
    BrickClass.floor ∈ [BrickClass.floor, .hvac_zone, .hvac_system, .electrical_system,
      .temperature_sensor, .power_sensor, .co2_sensor, .electrical_meter] ∧
    resolve (generate .query_entity (some .floor) [("id", "f1")] none).query
      (generate .query_entity (some .floor) [("id", "f1")] none).vars = defaultCypher :=
  ⟨by decide, (c10_singular_lookups_fall_back .floor [("id", "f1")] (by decide)).1⟩

end NLKG
